import Mathlib

/-!
# Verification of the AegisEdgeAI attestation agent against its specification

This file gives a shallow embedding, in Lean 4, of the core request handlers
of the AegisEdgeAI hybrid-cloud attestation agent (a fork of rust-keylime),
together with theorems settling the specification claims about them.

The embedding follows the Rust sources:

* `keylime-agent/src/delegated_certification_handler.rs` (rate limiter,
  `certify_app_key`, `create_qualifying_data`)
* `keylime-agent/src/geolocation_handler.rs` (`attested_geolocation`,
  `build_nested_geolocation`, `extend_pcr_15_with_geolocation_and_nonce`)
* `keylime-agent/src/quotes_handler.rs` (`identity`, `integrity`)
* `enterprise-private-cloud/wasm-plugin/src/lib.rs` (`on_http_call_response`)
* `code-rollout-phase-3/rust-keylime/keylime/src/registrar_client.rs`
  (`register_agent`, `activate_agent`)

External effects (TPM calls, file system, subprocesses, the openssl and
base64 crates) are modelled as explicit oracle functions carried in an
environment record; machine integers are modelled as `Nat` with explicit
truncation where overflow matters.  SHA-256 (the openssl hash the handlers
use) is implemented concretely over byte lists so that hash values can be
computed on concrete inputs.
-/

namespace AegisSpec

/-! ## Bytes, UTF-8, hex and SHA-256 -/

/-- Truncate to a 32-bit word (`u32` arithmetic is modular). -/
def w32 (n : Nat) : Nat := n % 4294967296

/-- Right rotation of a 32-bit word by `n` bits. -/
def rotr32 (n x : Nat) : Nat := w32 ((x >>> n) ||| (x <<< (32 - n)))

/-- Bitwise complement of a 32-bit word. -/
def not32 (x : Nat) : Nat := x ^^^ 4294967295

/-- UTF-8 encoding of a single character (as Rust's `str::as_bytes`). -/
def utf8EncodeChar (c : Char) : List Nat :=
  let n := c.toNat
  if n < 128 then [n]
  else if n < 2048 then [192 + n / 64, 128 + n % 64]
  else if n < 65536 then [224 + n / 4096, 128 + (n / 64) % 64, 128 + n % 64]
  else [240 + n / 262144, 128 + (n / 4096) % 64, 128 + (n / 64) % 64, 128 + n % 64]

/-- UTF-8 bytes of a string (Rust `str::as_bytes`). -/
def utf8Bytes (s : String) : List Nat := s.data.flatMap utf8EncodeChar

/-- Value of a single hexadecimal digit, if any. -/
def hexDigit (c : Char) : Option Nat :=
  if c.toNat ≥ 48 ∧ c.toNat ≤ 57 then some (c.toNat - 48)
  else if c.toNat ≥ 97 ∧ c.toNat ≤ 102 then some (c.toNat - 87)
  else if c.toNat ≥ 65 ∧ c.toNat ≤ 70 then some (c.toNat - 55)
  else none

/-- Hex decoding of a character list: pairs of hex digits, failing on an odd
length or a non-hex character (the behaviour of the `hex::decode` crate). -/
def hexDecodeChars : List Char → Option (List Nat)
  | [] => some []
  | [_] => none
  | c1 :: c2 :: rest => do
    let h ← hexDigit c1
    let l ← hexDigit c2
    let r ← hexDecodeChars rest
    pure ((h * 16 + l) :: r)

/-- Hex decoding of a string (the `hex::decode` crate). -/
def hexDecode (s : String) : Option (List Nat) := hexDecodeChars s.data

/-- Big-endian bytes of a 32-bit word. -/
def be32 (n : Nat) : List Nat :=
  [n / 16777216 % 256, n / 65536 % 256, n / 256 % 256, n % 256]

/-- Big-endian bytes of a 64-bit word. -/
def be64 (n : Nat) : List Nat :=
  [n / 72057594037927936 % 256, n / 281474976710656 % 256,
   n / 1099511627776 % 256, n / 4294967296 % 256,
   n / 16777216 % 256, n / 65536 % 256, n / 256 % 256, n % 256]

/-- SHA-256 round constants (FIPS 180-4, in decimal). -/
def sha256K : List Nat :=
  [
   1116352408, 1899447441, 3049323471, 3921009573, 961987163,
   1508970993, 2453635748, 2870763221, 3624381080, 310598401,
   607225278, 1426881987, 1925078388, 2162078206, 2614888103,
   3248222580, 3835390401, 4022224774, 264347078, 604807628,
   770255983, 1249150122, 1555081692, 1996064986, 2554220882,
   2821834349, 2952996808, 3210313671, 3336571891, 3584528711,
   113926993, 338241895, 666307205, 773529912, 1294757372,
   1396182291, 1695183700, 1986661051, 2177026350, 2456956037,
   2730485921, 2820302411, 3259730800, 3345764771, 3516065817,
   3600352804, 4094571909, 275423344, 430227734, 506948616,
   659060556, 883997877, 958139571, 1322822218, 1537002063,
   1747873779, 1955562222, 2024104815, 2227730452, 2361852424,
   2428436474, 2756734187, 3204031479, 3329325298]

/-- SHA-256 initial hash state (FIPS 180-4, in decimal). -/
def sha256H0 : List Nat :=
  [
   1779033703, 3144134277, 1013904242, 2773480762,
   1359893119, 2600822924, 528734635, 1541459225]

/-- Group a byte list into big-endian 32-bit words. -/
def bytesToWords : List Nat → List Nat
  | a :: b :: c :: d :: rest => (((a * 256 + b) * 256 + c) * 256 + d) :: bytesToWords rest
  | _ => []

/-- SHA-256 small sigma 0. -/
def ssig0 (x : Nat) : Nat := rotr32 7 x ^^^ rotr32 18 x ^^^ (x >>> 3)

/-- SHA-256 small sigma 1. -/
def ssig1 (x : Nat) : Nat := rotr32 17 x ^^^ rotr32 19 x ^^^ (x >>> 10)

/-- SHA-256 big sigma 0. -/
def bsig0 (x : Nat) : Nat := rotr32 2 x ^^^ rotr32 13 x ^^^ rotr32 22 x

/-- SHA-256 big sigma 1. -/
def bsig1 (x : Nat) : Nat := rotr32 6 x ^^^ rotr32 11 x ^^^ rotr32 25 x

/-- Extend the 16 message words of one block by `n` further schedule
words. -/
def sha256Schedule (w : Array Nat) : Nat → Array Nat
  | 0 => w
  | n + 1 =>
    let i := w.size
    let v := w32 (ssig1 w[i - 2]! + w[i - 7]! + ssig0 w[i - 15]! + w[i - 16]!)
    sha256Schedule (w.push v) n

/-- One SHA-256 compression round: state is the eight working variables. -/
def sha256Round (st : List Nat) (kw : Nat × Nat) : List Nat :=
  match st with
  | [a, b, c, d, e, f, g, h] =>
    let t1 := w32 (h + bsig1 e + ((e &&& f) ^^^ (not32 e &&& g)) + kw.1 + kw.2)
    let t2 := w32 (bsig0 a + ((a &&& b) ^^^ (a &&& c) ^^^ (b &&& c)))
    [w32 (t1 + t2), a, b, c, w32 (d + t1), e, f, g]
  | other => other

/-- Compress one 64-byte block into the running hash state. -/
def sha256Compress (hs : List Nat) (block : List Nat) : List Nat :=
  let w := sha256Schedule (Array.mk (bytesToWords block)) 48
  let final := (sha256K.zip w.toList).foldl sha256Round hs
  (hs.zip final).map (fun p => w32 (p.1 + p.2))

/-- SHA-256 padding: append `0x80`, zeros, and the 64-bit big-endian bit
length, reaching a multiple of 64 bytes. -/
def sha256Pad (msg : List Nat) : List Nat :=
  let len := msg.length
  let padZeros := (119 - len % 64) % 64
  msg ++ [128] ++ List.replicate padZeros 0 ++ be64 (len * 8)

/-- Split a byte list into 64-byte blocks (the fuel bounds the number of
blocks; callers pass the list length). -/
def chunks64Fuel : Nat → List Nat → List (List Nat)
  | 0, _ => []
  | _, [] => []
  | fuel + 1, l => l.take 64 :: chunks64Fuel fuel (l.drop 64)

/-- Split a byte list into 64-byte blocks. -/
def chunks64 (l : List Nat) : List (List Nat) :=
  chunks64Fuel l.length l

/-- SHA-256 of a byte list, as a 32-byte list. -/
def sha256 (msg : List Nat) : List Nat :=
  ((chunks64 (sha256Pad msg)).foldl sha256Compress sha256H0).flatMap be32

/-- Rust `str::trim`: remove leading and trailing whitespace. -/
def rustTrim (s : String) : String :=
  String.mk (((s.data.dropWhile Char.isWhitespace).reverse.dropWhile
    Char.isWhitespace).reverse)

/-- Rust `str::starts_with` on string patterns. -/
def rustStartsWith (s p : String) : Bool :=
  decide (s.data.take p.data.length = p.data)

/-- Rust `Vec::join(", ")` on strings. -/
def joinComma : List String → String
  | [] => ""
  | [s] => s
  | s :: rest => s ++ ", " ++ joinComma rest

/-- `tss_esapi::structures::Data::try_from`: a `TPM2B_DATA` buffer holds at
most 64 bytes. -/
def dataTryFrom (b : List Nat) : Option (List Nat) :=
  if b.length ≤ 64 then some b else none

/-- `tss_esapi::structures::Digest::try_from`: a `TPM2B_DIGEST` buffer holds
at most 64 bytes. -/
def digestTryFrom (b : List Nat) : Option (List Nat) :=
  if b.length ≤ 64 then some b else none

/-! ## Delegated certification handler

Embedding of `keylime-agent/src/delegated_certification_handler.rs`.
External collaborators (file system, TPM context, the openssl and base64
crates) are oracle functions in `DelegatedCert.Env`; the global
`RATE_LIMITER` map is explicit state; `Instant` timestamps are `Nat`
seconds (`Duration::from_secs(60)` becomes the literal `60`).
-/

namespace DelegatedCert

/-- Rate limiter state: per-IP `(request_count, window_start_time)`,
as an association list standing for the `HashMap`. -/
abbrev RateMap := List (String × Nat × Nat)

/-- Look an IP up in the rate-limiter map. -/
def rateLookup : RateMap → String → Option (Nat × Nat)
  | [], _ => none
  | (k, v) :: rest, ip => if k = ip then some v else rateLookup rest ip

/-- Store an IP's entry in the rate-limiter map. -/
def rateInsert : RateMap → String → Nat × Nat → RateMap
  | [], ip, v => [(ip, v)]
  | (k, w) :: rest, ip, v =>
    if k = ip then (k, v) :: rest else (k, w) :: rateInsert rest ip v

/-- `check_rate_limit`: admit the call unless the IP has already made
`limit` calls in the current 60-second window; a window older than 60
seconds is reset.  Returns the verdict and the updated map. -/
def check_rate_limit (m : RateMap) (ip : String) (limit : Nat) (now : Nat) :
    Bool × RateMap :=
  if limit = 0 then (true, m)
  else
    let e0 := (rateLookup m ip).getD (0, now)
    let e1 := if now - e0.2 > 60 then (0, now) else e0
    let e2 := (e1.1 + 1, e1.2)
    (decide (e2.1 ≤ limit), rateInsert m ip e2)

/-- Request body of `POST /delegated_certification/certify_app_key`. -/
structure CertifyAppKeyRequest where
  api_version : Option String
  command : Option String
  app_key_public : String
  app_key_context_path : String
  challenge_nonce : Option String

/-- Oracles for the effects of `certify_app_key`: agent configuration,
file system, TPM context, and external crates.  `Attest` and `Signature`
values are opaque (`Nat` identifiers); `marshall` maps them to their TPM
wire bytes. -/
structure Env where
  unified_identity_enabled : Bool
  delegated_cert_allowed_ips : List String
  delegated_cert_rate_limit : Nat
  agent_uuid : String
  ak_handle : Nat
  fileExists : String → Bool
  load_key_from_context_file : String → Except String Nat
  base64Decode : String → Option (List Nat)
  utf8Decode : List Nat → Option String
  public_key_pem_roundtrip : String → Except String (List Nat)
  certify_credential : List Nat → Nat → Nat → Except String (Nat × Nat)
  marshall : Nat → Except String (List Nat)

/-- `create_qualifying_data`: parse and re-serialize the PEM public key
(the openssl round trip `public_key_from_pem` / `public_key_to_pem`,
oracle `public_key_pem_roundtrip`), hash it, append the UTF-8 bytes of the
challenge nonce, hash again, and wrap as TPM `Data`. -/
def create_qualifying_data (env : Env) (pem : String) (challenge_nonce : String) :
    Except String (List Nat) :=
  match env.public_key_pem_roundtrip pem with
  | .error e => .error e
  | .ok pubkey_bytes =>
    match dataTryFrom (sha256 (sha256 pubkey_bytes ++ utf8Bytes challenge_nonce)) with
    | some d => .ok d
    | none => .error "Data too long"

/-- Result of one `certify_app_key` request: HTTP status code, the
qualifying data passed to `certify_credential` (if the call was reached),
and the updated rate-limiter map. -/
structure CertifyOutcome where
  code : Nat
  qd_passed : Option (List Nat)
  rate : RateMap

/-- The `app_key_public` normalization step of `certify_app_key`: keep a
PEM-looking value; otherwise try base64, where a decode failure falls back
to the raw value but a UTF-8 failure is a 400 error (`none`). -/
def decode_app_key_public (env : Env) (s : String) : Option String :=
  if rustStartsWith s "-----BEGIN" then some s
  else
    match env.base64Decode s with
    | some bytes =>
      match env.utf8Decode bytes with
      | some t => some t
      | none => none
    | none => some s

/-- The `certify_app_key` handler: feature flag, allowlist, rate limit and
field checks, then App-Key load, qualifying-data construction,
`TPM2_Certify` and marshalling.  `peer_addr` is the connection's peer
address string; `now` is the current time in seconds. -/
def certify_app_key (env : Env) (peer_addr : String) (req : CertifyAppKeyRequest)
    (rate : RateMap) (now : Nat) : CertifyOutcome :=
  if env.unified_identity_enabled = false then ⟨403, none, rate⟩
  else
    let peer_ip := String.mk (peer_addr.data.takeWhile (fun c => c ≠ ':'))
    if env.delegated_cert_allowed_ips ≠ [] ∧
        env.delegated_cert_allowed_ips.contains peer_ip = false then
      ⟨403, none, rate⟩
    else
      match check_rate_limit rate peer_ip env.delegated_cert_rate_limit now with
      | (false, rate') => ⟨429, none, rate'⟩
      | (true, rate') =>
        if req.app_key_public = "" then ⟨400, none, rate'⟩
        else if req.app_key_context_path = "" then ⟨400, none, rate'⟩
        else
          match req.challenge_nonce with
          | none => ⟨400, none, rate'⟩
          | some challenge_nonce =>
            if challenge_nonce = "" then ⟨400, none, rate'⟩
            else if env.fileExists req.app_key_context_path = false then
              ⟨400, none, rate'⟩
            else
              match env.load_key_from_context_file req.app_key_context_path with
              | .error _ => ⟨500, none, rate'⟩
              | .ok app_key_handle =>
                match decode_app_key_public env req.app_key_public with
                | none => ⟨400, none, rate'⟩
                | some app_key_public_pem =>
                  match create_qualifying_data env app_key_public_pem challenge_nonce with
                  | .error _ => ⟨500, none, rate'⟩
                  | .ok qualifying_data =>
                    match env.certify_credential qualifying_data app_key_handle env.ak_handle with
                    | .error _ => ⟨500, some qualifying_data, rate'⟩
                    | .ok (attest, signature) =>
                      match env.marshall attest with
                      | .error _ => ⟨500, some qualifying_data, rate'⟩
                      | .ok _attest_bytes =>
                        match env.marshall signature with
                        | .error _ => ⟨500, some qualifying_data, rate'⟩
                        | .ok _sig_bytes => ⟨200, some qualifying_data, rate'⟩

end DelegatedCert

/-! ## Geolocation handler

Embedding of `keylime-agent/src/geolocation_handler.rs`.  JSON
serialization is modelled as the exact strings `serde_json` produces:
compact encoding, struct fields in declaration order, `Option` fields with
`skip_serializing_if` omitted when `None`.  The `f64` GNSS fields are
carried as their `serde_json` decimal renderings (strings), since only
their serialized form enters the hashed data.
-/

namespace Geo

/-- Mobile sensor block of the geolocation claim. -/
structure MobileSensor where
  sensor_id : String
  sensor_imei : String
  sensor_imsi : String
  deriving DecidableEq, Repr

/-- GNSS sensor block of the geolocation claim (numeric fields are their
JSON renderings). -/
structure GNSSSensor where
  sensor_id : String
  sensor_serial_number : Option String
  latitude : String
  longitude : String
  accuracy : String
  sensor_signature : Option String
  deriving DecidableEq, Repr

/-- The nested geolocation response returned by the endpoint. -/
structure GeolocationResponse where
  sensor_type : String
  mobile : Option MobileSensor
  gnss : Option GNSSSensor
  tpm_attested : Bool
  tpm_pcr_index : Nat
  nonce : String
  deriving DecidableEq, Repr

/-- Raw sensor data as produced by `detect_geolocation_sensor`. -/
structure RawSensorData where
  sensor_type : String
  sensor_id : String
  imei : Option String
  imsi : Option String
  lat : Option String
  lon : Option String
  accuracy : Option String
  deriving DecidableEq, Repr

/-- `build_nested_geolocation`: shape the raw sensor data into the nested
response; unknown sensor types fall back to a mobile block with `unknown`
values; the nonce is filled in by the handler. -/
def build_nested_geolocation (raw : RawSensorData) : GeolocationResponse :=
  if raw.sensor_type = "mobile" then
    { sensor_type := "mobile"
      mobile := some
        { sensor_id := raw.sensor_id
          sensor_imei := raw.imei.getD "unknown"
          sensor_imsi := raw.imsi.getD "unknown" }
      gnss := none
      tpm_attested := true
      tpm_pcr_index := 15
      nonce := "" }
  else if raw.sensor_type = "gnss" then
    { sensor_type := "gnss"
      mobile := none
      gnss := some
        { sensor_id := raw.sensor_id
          sensor_serial_number := none
          latitude := raw.lat.getD "0.0"
          longitude := raw.lon.getD "0.0"
          accuracy := raw.accuracy.getD "0.0"
          sensor_signature := none }
      tpm_attested := true
      tpm_pcr_index := 15
      nonce := "" }
  else
    { sensor_type := "mobile"
      mobile := some
        { sensor_id := raw.sensor_id
          sensor_imei := "unknown"
          sensor_imsi := "unknown" }
      gnss := none
      tpm_attested := true
      tpm_pcr_index := 15
      nonce := "" }

/-- JSON string escaping as `serde_json` performs it. -/
def jsonEscapeChar (c : Char) : List Char :=
  if c = '"' then ['\\', '"']
  else if c = '\\' then ['\\', '\\']
  else if c.toNat = 8 then ['\\', 'b']
  else if c.toNat = 9 then ['\\', 't']
  else if c.toNat = 10 then ['\\', 'n']
  else if c.toNat = 12 then ['\\', 'f']
  else if c.toNat = 13 then ['\\', 'r']
  else if c.toNat < 32 then
    ['\\', 'u', '0', '0',
     (if c.toNat / 16 < 10 then Char.ofNat (48 + c.toNat / 16) else Char.ofNat (87 + c.toNat / 16)),
     (if c.toNat % 16 < 10 then Char.ofNat (48 + c.toNat % 16) else Char.ofNat (87 + c.toNat % 16))]
  else [c]

/-- A JSON string literal. -/
def jstr (s : String) : String :=
  "\"" ++ String.mk (s.data.flatMap jsonEscapeChar) ++ "\""

/-- Compact serialization of a `MobileSensor` (serde field order). -/
def serializeMobileSensor (m : MobileSensor) : String :=
  "\x7b\"sensor_id\":" ++ jstr m.sensor_id
  ++ ",\"sensor_imei\":" ++ jstr m.sensor_imei
  ++ ",\"sensor_imsi\":" ++ jstr m.sensor_imsi ++ "\x7d"

/-- Compact serialization of a `GNSSSensor` (serde field order; `None`
optional fields are skipped). -/
def serializeGNSSSensor (g : GNSSSensor) : String :=
  "\x7b\"sensor_id\":" ++ jstr g.sensor_id
  ++ (match g.sensor_serial_number with
      | none => ""
      | some s => ",\"sensor_serial_number\":" ++ jstr s)
  ++ ",\"latitude\":" ++ g.latitude
  ++ ",\"longitude\":" ++ g.longitude
  ++ ",\"accuracy\":" ++ g.accuracy
  ++ (match g.sensor_signature with
      | none => ""
      | some s => ",\"sensor_signature\":" ++ jstr s)
  ++ "\x7d"

/-- Serialization of an `Option` as a JSON value (as the `json!` macro
serializes `Option` fields): `None` becomes `null`. -/
def optJson {α : Type} (f : α → String) : Option α → String
  | none => "null"
  | some a => f a

/-- A `GNSSSensor` converted to a `serde_json::Value` (as the `json!`
macro does with the `gnss` field): the object's keys come out in
`serde_json`'s default `BTreeMap` order, i.e. alphabetically
(`accuracy, latitude, longitude, sensor_id, sensor_serial_number,
sensor_signature`); `None` optional fields are skipped by the `Serialize`
impl before the map is built. -/
def serializeGNSSSensorValue (g : GNSSSensor) : String :=
  "\x7b\"accuracy\":" ++ g.accuracy
  ++ ",\"latitude\":" ++ g.latitude
  ++ ",\"longitude\":" ++ g.longitude
  ++ ",\"sensor_id\":" ++ jstr g.sensor_id
  ++ (match g.sensor_serial_number with
      | none => ""
      | some s => ",\"sensor_serial_number\":" ++ jstr s)
  ++ (match g.sensor_signature with
      | none => ""
      | some s => ",\"sensor_signature\":" ++ jstr s)
  ++ "\x7d"

/-- The `geo_for_hash` object built with `serde_json::json!` in
`extend_pcr_15_with_geolocation_and_nonce`.  A `serde_json::Value` object
is backed by a `BTreeMap` under the crate's default features, so its keys
serialize in alphabetical order: `gnss, mobile, sensor_type,
tpm_attested, tpm_pcr_index` — not the order they are written in the
macro.  The absent `mobile`/`gnss` `Option` serializes as `null`; the
nested sensor structs are themselves converted to `Value` objects with
alphabetical keys (for `MobileSensor` the alphabetical order
`sensor_id, sensor_imei, sensor_imsi` coincides with the declaration
order, so `serializeMobileSensor` is reused). -/
def serialize_geo_for_hash (g : GeolocationResponse) : String :=
  "\x7b\"gnss\":" ++ optJson serializeGNSSSensorValue g.gnss
  ++ ",\"mobile\":" ++ optJson serializeMobileSensor g.mobile
  ++ ",\"sensor_type\":" ++ jstr g.sensor_type
  ++ ",\"tpm_attested\":" ++ (if g.tpm_attested then "true" else "false")
  ++ ",\"tpm_pcr_index\":" ++ toString g.tpm_pcr_index
  ++ "\x7d"

/-- Serde serialization of the `GeolocationResponse` claim as returned to
the caller: struct fields in declaration order, `None` sensors skipped. -/
def serializeGeolocationResponse (g : GeolocationResponse) : String :=
  "\x7b\"sensor_type\":" ++ jstr g.sensor_type
  ++ (match g.mobile with
      | none => ""
      | some m => ",\"mobile\":" ++ serializeMobileSensor m)
  ++ (match g.gnss with
      | none => ""
      | some s => ",\"gnss\":" ++ serializeGNSSSensor s)
  ++ ",\"tpm_attested\":" ++ (if g.tpm_attested then "true" else "false")
  ++ ",\"tpm_pcr_index\":" ++ toString g.tpm_pcr_index
  ++ ",\"nonce\":" ++ jstr g.nonce
  ++ "\x7d"

/-- Spec-side definition for claim C2 (from the claim's words, not from the
source): the JSON of the returned claim object with its `nonce` field
removed. -/
def serializeClaimWithoutNonce (g : GeolocationResponse) : String :=
  "\x7b\"sensor_type\":" ++ jstr g.sensor_type
  ++ (match g.mobile with
      | none => ""
      | some m => ",\"mobile\":" ++ serializeMobileSensor m)
  ++ (match g.gnss with
      | none => ""
      | some s => ",\"gnss\":" ++ serializeGNSSSensor s)
  ++ ",\"tpm_attested\":" ++ (if g.tpm_attested then "true" else "false")
  ++ ",\"tpm_pcr_index\":" ++ toString g.tpm_pcr_index
  ++ "\x7d"

/-- Oracles for the geolocation endpoint: feature flag, sensor detection
(`lsusb` scan and device-node probe), and the TPM PCR-extension call.  A
`DigestValues` is a list of `(bank, digest)` pairs. -/
structure Env where
  unified_identity_enabled : Bool
  detect_geolocation_sensor : Option RawSensorData
  extend_pcr : Nat → List (String × List Nat) → Except String Unit

/-- Result of one `attested_geolocation` request: HTTP status, the claim
returned on success, and the `(pcr index, DigestValues)` passed to
`extend_pcr` if the call was reached. -/
structure GeoOutcome where
  code : Nat
  claim : Option GeolocationResponse
  digest_extended : Option (Nat × List (String × List Nat))

/-- `extend_pcr_15_with_geolocation_and_nonce`: serialize the claim without
its nonce (via `json!`), append the nonce, hash with SHA-256, wrap as a
single-bank `DigestValues` under SHA-256 and extend PCR 15.  Also reports
what was passed to `extend_pcr`. -/
def extend_pcr_15_with_geolocation_and_nonce (env : Env)
    (geolocation : GeolocationResponse) (nonce : String) :
    Except String Unit × Option (Nat × List (String × List Nat)) :=
  match digestTryFrom
      (sha256 (utf8Bytes (serialize_geo_for_hash geolocation ++ nonce))) with
  | none => (.error "Failed to create TPM digest", none)
  | some digest =>
    (env.extend_pcr 15 [("sha256", digest)],
      some (15, [("sha256", digest)]))

/-- The `attested_geolocation` handler: feature flag (403), sensor
detection (404), claim construction, PCR-15 extension (500 on failure),
200 with the claim. -/
def attested_geolocation (env : Env) (nonce : String) : GeoOutcome :=
  if env.unified_identity_enabled = false then ⟨403, none, none⟩
  else
    match env.detect_geolocation_sensor with
    | none => ⟨404, none, none⟩
    | some raw =>
      let response := { build_nested_geolocation raw with nonce := nonce }
      match extend_pcr_15_with_geolocation_and_nonce env response nonce with
      | (.error _, dg) => ⟨500, none, dg⟩
      | (.ok _, dg) => ⟨200, some response, dg⟩

end Geo

/-! ## Quote handlers

Embedding of `keylime-agent/src/quotes_handler.rs` (`identity` and
`integrity`).  The `integrity` embedding additionally records a trace of
the quote / measured-boot / IMA operations, in the order the handler
performs them, to settle the ordering claim.
-/

namespace Quotes

/-- Modelled from the spec: `tpm::MAX_NONCE_SIZE` lives in the `tpm`
module, which is not among the provided sources.  The spec fixes the TPM's
maximum nonce size for SHA-256 at 32 bytes, and the handler's comments
("max 64 hex chars = 32 bytes", "TPM supports up to 32 bytes for SHA-256")
confirm the value. -/
def MAX_NONCE_SIZE : Nat := 32

/-- Rust `char::is_alphanumeric`, restricted to its ASCII behaviour (the
claims' inputs are ASCII). -/
def isAlphanumeric (c : Char) : Bool := c.isAlphanum

/-- Query parameters of `GET /quotes/identity`. -/
structure Ident where
  nonce : String

/-- Query parameters of `GET /quotes/integrity`.  The source's `partial`
field is named `partParam` here because `partial` is a Lean keyword. -/
structure Integ where
  nonce : String
  mask : String
  partParam : String
  ima_ml_entry : Option String

/-- `keylime::quote::Geolocation` as constructed by this agent's
`detect_geolocation_sensor` (the source's `r#type` field is named
`sensorType` here because `type` is a Lean keyword). -/
structure GeolocationMeta where
  sensorType : Option String
  sensor_id : Option String
  value : Option String
  sensor_imei : Option String
  sensor_imsi : Option String
  deriving DecidableEq, Repr

/-- `keylime::quote::KeylimeQuote`, the JSON payload of both quote
endpoints. -/
structure KeylimeQuote where
  quote : String
  hash_alg : String
  enc_alg : String
  sign_alg : String
  pubkey : Option String
  ima_measurement_list : Option String
  mb_measurement_list : Option String
  ima_measurement_list_entry : Option Nat
  geolocation : Option GeolocationMeta
  deriving DecidableEq, Repr

/-- Oracles for the quote endpoints: agent configuration and algorithm
renderings, the TPM quote operation (`context.quote` applied to the nonce
bytes and PCR mask; the payload key, AK handle and algorithms are fixed in
`QuoteData`), `crypto::pkey_pub_to_pem`, `tpm::check_mask`, and the
measured-boot / IMA files. -/
structure Env where
  hash_alg : String
  enc_alg : String
  sign_alg : String
  unified_identity_enabled : Bool
  detect_geolocation_sensor : Option GeolocationMeta
  pkey_pub_to_pem : Except String String
  tpm_quote : List Nat → Nat → Except String String
  check_mask : Nat → Nat → Except String Bool
  measuredboot_ml_file : Bool
  mb_rewind : Except String Unit
  mb_read : Except String (List Nat)
  ima_ml_file : Bool
  ima_read : Nat → Except String (String × Nat × Nat)

/-- Result of one `identity` request. -/
structure IdentityOutcome where
  code : Nat
  results : Option KeylimeQuote

/-- The `identity` handler: alphanumeric check, hex-length check, hex
decoding of the nonce, decoded-length check, TPM quote over mask 0,
optional geolocation metadata, payload public key, 200. -/
def identity (env : Env) (param : Ident) : IdentityOutcome :=
  if (param.nonce.data.all isAlphanumeric) = false then ⟨400, none⟩
  else if param.nonce.length > MAX_NONCE_SIZE * 2 then ⟨400, none⟩
  else
    match hexDecode param.nonce with
    | none => ⟨400, none⟩
    | some nonce_bytes =>
      if nonce_bytes.length > MAX_NONCE_SIZE then ⟨400, none⟩
      else
        match env.tpm_quote nonce_bytes 0 with
        | .error _ => ⟨500, none⟩
        | .ok tpm_quote =>
          let geolocation :=
            if env.unified_identity_enabled then env.detect_geolocation_sensor
            else none
          let quote : KeylimeQuote :=
            { quote := tpm_quote
              hash_alg := env.hash_alg
              enc_alg := env.enc_alg
              sign_alg := env.sign_alg
              pubkey := none
              ima_measurement_list := none
              mb_measurement_list := none
              ima_measurement_list_entry := none
              geolocation := geolocation }
          match env.pkey_pub_to_pem with
          | .error _ => ⟨500, none⟩
          | .ok pubkey => ⟨200, some { quote with pubkey := some pubkey }⟩

/-- Remove every leading `0x` from a character list. -/
def trim0xChars : List Char → List Char
  | '0' :: 'x' :: rest => trim0xChars rest
  | l => l

/-- `str::trim_start_matches("0x")`: remove every leading `0x`. -/
def trim_start_matches_0x (s : String) : String :=
  String.mk (trim0xChars s.data)

/-- `u32::from_str_radix(s, 16)` on an already-alphanumeric string: at
least one hexadecimal digit, value below `2^32`. -/
def from_str_radix_16 (s : String) : Option Nat :=
  if s = "" then none
  else
    match s.data.foldl
        (fun acc c =>
          match acc, hexDigit c with
          | some a, some d => some (a * 16 + d)
          | _, _ => none)
        (some 0) with
    | none => none
    | some v => if v < 4294967296 then some v else none

/-- `str::parse::<u64>().unwrap_or(0)`: an optional `+` sign, then decimal
digits; overflow or any other character yields 0. -/
def parse_u64_or_zero (s : String) : Nat :=
  let digits := match s.data with
    | '+' :: rest => rest
    | l => l
  if digits = [] then 0
  else
    match digits.foldl
        (fun acc c =>
          match acc with
          | some a =>
            if c.toNat ≥ 48 ∧ c.toNat ≤ 57 then some (a * 10 + (c.toNat - 48))
            else none
          | none => none)
        (some 0) with
    | some v => if v < 18446744073709551616 then v else 0
    | none => 0

/-- Alphabet of standard base64. -/
def b64Alphabet : List Char :=
  "ABCDEFGHIJKLMNOPQRSTUVWXYZabcdefghijklmnopqrstuvwxyz0123456789+/".data

/-- Pick a base64 alphabet character. -/
def b64Char (n : Nat) : Char := b64Alphabet.getD n '='

/-- Standard base64 encoding (the `base64` crate's `STANDARD` engine). -/
def base64Encode : List Nat → String
  | [] => ""
  | [a] =>
    String.mk [b64Char (a / 4), b64Char (a % 4 * 16)] ++ "=="
  | [a, b] =>
    String.mk [b64Char (a / 4), b64Char (a % 4 * 16 + b / 16),
      b64Char (b % 16 * 4)] ++ "="
  | a :: b :: c :: rest =>
    String.mk [b64Char (a / 4), b64Char (a % 4 * 16 + b / 16),
      b64Char (b % 16 * 4 + c / 64), b64Char (c % 64)] ++ base64Encode rest

/-- Observable TPM / file operations of the `integrity` handler, in
execution order (the trace records the quote and the IMA read, the two
operations whose order the spec constrains). -/
inductive QEvent
  | quoteOp (nonce_bytes : List Nat) (mask : Nat)
  | imaReadOp (nth_entry : Nat)
  deriving DecidableEq, Repr

/-- Result of one `integrity` request: HTTP status, payload, and the trace
of TPM / file operations in the order performed. -/
structure IntegrityOutcome where
  code : Nat
  results : Option KeylimeQuote
  trace : List QEvent
  deriving Repr

/-- The iterative-attestation start index: `ima_ml_entry` parsed as `u64`,
defaulting to 0. -/
def nth_entry (param : Integ) : Nat :=
  match param.ima_ml_entry with
  | none => 0
  | some idx => parse_u64_or_zero idx

/-- The measured-boot branch of `integrity`: when the file is configured,
rewind it (an error is fatal) and read it fully (a read error merely omits
the field); the read bytes are base64-encoded. -/
def read_measuredboot (env : Env) : Except String (Option String) :=
  if env.measuredboot_ml_file then
    match env.mb_rewind with
    | .error e => .error e
    | .ok _ =>
      match env.mb_read with
      | .ok ml => .ok (some (base64Encode ml))
      | .error _ => .ok none
  else .ok none

/-- The quote built before the per-request extras are attached
(`id_quote` in the source). -/
def id_quote_of (env : Env) (tpm_quote : String) : KeylimeQuote :=
  { quote := tpm_quote
    hash_alg := env.hash_alg
    enc_alg := env.enc_alg
    sign_alg := env.sign_alg
    pubkey := none
    ima_measurement_list := none
    mb_measurement_list := none
    ima_measurement_list_entry := none
    geolocation := none }

/-- The TPM and measurement-list phase of `integrity`, after input
validation and the `partial` dispatch: in this order, the TPM quote over
the nonce's UTF-8 bytes, `check_mask` and the optional measured-boot read
(when the mask selects PCR 0), then the IMA measurement-list slice. -/
def integrity_quote_steps (env : Env) (param : Integ) (mask : Nat)
    (pubkey : Option String) : IntegrityOutcome :=
  match env.tpm_quote (utf8Bytes param.nonce) mask with
  | .error _ => ⟨500, none, [.quoteOp (utf8Bytes param.nonce) mask]⟩
  | .ok tpm_quote =>
    match env.check_mask mask 0 with
    | .error _ => ⟨500, none, [.quoteOp (utf8Bytes param.nonce) mask]⟩
    | .ok pcr0_selected =>
      match (if pcr0_selected then read_measuredboot env else .ok none) with
      | .error _ => ⟨500, none, [.quoteOp (utf8Bytes param.nonce) mask]⟩
      | .ok mb_measurement_list =>
        if env.ima_ml_file then
          match env.ima_read (nth_entry param) with
          | .error _ =>
            ⟨500, none,
              [.quoteOp (utf8Bytes param.nonce) mask,
               .imaReadOp (nth_entry param)]⟩
          | .ok (text, entry_idx, _num_entries) =>
            ⟨200,
              some { id_quote_of env tpm_quote with
                pubkey := pubkey
                ima_measurement_list := some text
                mb_measurement_list := mb_measurement_list
                ima_measurement_list_entry := some entry_idx },
              [.quoteOp (utf8Bytes param.nonce) mask,
               .imaReadOp (nth_entry param)]⟩
        else
          ⟨200,
            some { id_quote_of env tpm_quote with
              pubkey := pubkey
              mb_measurement_list := mb_measurement_list },
            [.quoteOp (utf8Bytes param.nonce) mask]⟩

/-- The `integrity` handler: alphanumeric checks on nonce and mask, hex
mask parse, nonce length check against `MAX_NONCE_SIZE` (in characters,
not hex-decoded bytes), `partial` dispatch with the payload public key,
then the TPM and measurement-list phase. -/
def integrity (env : Env) (param : Integ) : IntegrityOutcome :=
  if (param.nonce.data.all isAlphanumeric) = false then ⟨400, none, []⟩
  else if (param.mask.data.all isAlphanumeric) = false then ⟨400, none, []⟩
  else
    match from_str_radix_16 (trim_start_matches_0x param.mask) with
    | none => ⟨400, none, []⟩
    | some mask =>
      if param.nonce.length > MAX_NONCE_SIZE then ⟨400, none, []⟩
      else if param.partParam = "0" then
        match env.pkey_pub_to_pem with
        | .error _ => ⟨500, none, []⟩
        | .ok pubkey => integrity_quote_steps env param mask (some pubkey)
      else if param.partParam = "1" then
        integrity_quote_steps env param mask none
      else ⟨400, none, []⟩

/-- Is a trace event the TPM quote operation? -/
def isQuoteOp : QEvent → Bool
  | .quoteOp _ _ => true
  | _ => false

/-- Is a trace event the IMA measurement-list read? -/
def isImaReadOp : QEvent → Bool
  | .imaReadOp _ => true
  | _ => false

/-- The nonce bytes passed to the first TPM quote operation in a trace. -/
def quoteBytesOf : List QEvent → Option (List Nat)
  | [] => none
  | .quoteOp b _ :: _ => some b
  | _ :: rest => quoteBytesOf rest

end Quotes

/-! ## Edge filter sidecar-response handling

Embedding of `on_http_call_response` from
`enterprise-private-cloud/wasm-plugin/src/lib.rs`.  The response body is
modelled at the granularity the handler observes it: either absent
(transport / body retrieval failure), or a parse outcome of the
`VerifyResponse` deserialization (`invalid` for a parse error, otherwise
the `verification_result` and `error` fields).
-/

namespace EdgeFilter

/-- Parse outcome of the sidecar response body as `VerifyResponse`. -/
inductive SidecarJson
  | invalid
  | object (verification_result : Option Bool) (error : Option String)
  deriving DecidableEq

/-- What the filter does with the paused request. -/
inductive FilterAction
  | reject (code : Nat)
  | resume
  deriving DecidableEq, Repr

/-- `on_http_call_response`: no body → 503; HTTP status ≥ 400 → 503;
parse error → 503; JSON `error` field set → 503; `verification_result`
not `true` → 403; otherwise resume the request. -/
def on_http_call_response (status_code : Nat) (body : Option SidecarJson) :
    FilterAction :=
  match body with
  | none => .reject 503
  | some parsed =>
    if status_code ≥ 400 then .reject 503
    else
      match parsed with
      | .invalid => .reject 503
      | .object verification_result error =>
        match error with
        | some _ => .reject 503
        | none =>
          if verification_result.getD false then .resume
          else .reject 403

end EdgeFilter

/-! ## Registrar client

Embedding of `register_agent` and `activate_agent` from
`code-rollout-phase-3/rust-keylime/keylime/src/registrar_client.rs`.  The
HTTP attempt for one API version (`try_register_agent` /
`try_activate_agent`) is an oracle `tryFn`; both functions additionally
report the list of versions for which an attempt was actually sent, in
order.
-/

namespace Registrar

/-- The sentinel recorded when the registrar's `/version` endpoint is
unreachable. -/
def UNKNOWN_API_VERSION : String := "unknown"

/-- `RegistrarClientError` (error payloads of the external crates are
strings). -/
inductive RegistrarClientError
  | Activation (code : Nat)
  | AllAPIVersionsRejected (tried : String)
  | IncompatibleAPI (agent_enabled : String) (registrar_supported : String)
  | Inconsistent (version : String)
  | NoCode (t : String)
  | Registration (code : Nat)
  | Reqwest (msg : String)
  | Serde (msg : String)
  | Middleware (msg : String)
  deriving DecidableEq, Repr

/-- Is this error the API-incompatibility error the version loop retries
past? -/
def isIncompatibleAPI : RegistrarClientError → Bool
  | .IncompatibleAPI _ _ => true
  | _ => false

/-- The version-related state of a `RegistrarClient`: the current API
version recorded by the `/version` probe (or the UNKNOWN sentinel) and the
recorded supported-versions list, if any. -/
structure RegistrarClient where
  api_version : String
  supported_api_versions : Option (List String)
  deriving DecidableEq, Repr

/-- The fallback loop used when the registrar's current version is
UNKNOWN: try every enabled version (the caller passes the reversed enabled
list), caching the first success; any failure moves on to the next
version.  Returns the early-exit result (with the version to cache) and
the versions attempted. -/
def try_versions_unknown {β : Type}
    (tryFn : String → Except RegistrarClientError β) :
    List String → Option (β × String) × List String
  | [] => (none, [])
  | v :: rest =>
    match tryFn v with
    | .ok blob => (some (blob, v), [v])
    | .error _ =>
      let (r, att) := try_versions_unknown tryFn rest
      (r, v :: att)

/-- The supported-versions loop of `register_agent` (the caller passes the
reversed enabled list): skip versions the registrar does not support
(whitespace-trimmed comparison); on success cache the trimmed version; on
an `IncompatibleAPI` error continue; on any other error return it
immediately. -/
def register_try_versions
    (tryFn : String → Except RegistrarClientError (List Nat))
    (supported : List String) :
    List String →
      Option (Except RegistrarClientError (List Nat) × Option String) × List String
  | [] => (none, [])
  | v :: rest =>
    let v' := rustTrim v
    if supported.any (fun s => rustTrim s = v') then
      match tryFn v with
      | .ok blob => (some (.ok blob, some v'), [v])
      | .error e =>
        if isIncompatibleAPI e then
          let (r, att) := register_try_versions tryFn supported rest
          (r, v :: att)
        else (some (.error e, none), [v])
    else register_try_versions tryFn supported rest

/-- The supported-versions loop of `activate_agent` (the caller passes the
reversed enabled list): skip unsupported versions; on success cache the
trimmed version; on ANY error log and continue with the next version. -/
def activate_try_versions
    (tryFn : String → Except RegistrarClientError Unit)
    (supported : List String) :
    List String → Option (Unit × String) × List String
  | [] => (none, [])
  | v :: rest =>
    let v' := rustTrim v
    if supported.any (fun s => rustTrim s = v') then
      match tryFn v with
      | .ok u => (some (u, v'), [v])
      | .error _ =>
        let (r, att) := activate_try_versions tryFn supported rest
        (r, v :: att)
    else activate_try_versions tryFn supported rest

/-- `register_agent`: use the current version when enabled; otherwise when
the current version is UNKNOWN try all enabled versions; otherwise walk
the supported-versions loop, ending in `IncompatibleAPI` when no match
succeeds, or `Inconsistent` when no supported list was recorded.  Returns
the result, the updated client state, and the versions attempted. -/
def register_agent
    (tryFn : String → Except RegistrarClientError (List Nat))
    (st : RegistrarClient) (enabled_api_versions : List String) :
    Except RegistrarClientError (List Nat) × RegistrarClient × List String :=
  if enabled_api_versions.contains st.api_version then
    (tryFn st.api_version, st, [st.api_version])
  else if st.api_version = UNKNOWN_API_VERSION then
    match try_versions_unknown tryFn enabled_api_versions.reverse with
    | (some (blob, v), att) => (.ok blob, { st with api_version := v }, att)
    | (none, att) =>
      (.error (.AllAPIVersionsRejected (joinComma enabled_api_versions)),
        st, att)
  else
    match st.supported_api_versions with
    | some supported =>
      match register_try_versions tryFn supported enabled_api_versions.reverse with
      | (some (r, cached), att) =>
        (r, { st with api_version := cached.getD st.api_version }, att)
      | (none, att) =>
        (.error (.IncompatibleAPI (joinComma enabled_api_versions)
            (joinComma supported)), st, att)
    | none => (.error (.Inconsistent st.api_version), st, [])

/-- `activate_agent`: same skeleton as `register_agent`, but the
supported-versions loop continues past every failed attempt. -/
def activate_agent
    (tryFn : String → Except RegistrarClientError Unit)
    (st : RegistrarClient) (enabled_api_versions : List String) :
    Except RegistrarClientError Unit × RegistrarClient × List String :=
  if enabled_api_versions.contains st.api_version then
    (tryFn st.api_version, st, [st.api_version])
  else if st.api_version = UNKNOWN_API_VERSION then
    match try_versions_unknown tryFn enabled_api_versions.reverse with
    | (some (u, v), att) => (.ok u, { st with api_version := v }, att)
    | (none, att) =>
      (.error (.AllAPIVersionsRejected (joinComma enabled_api_versions)),
        st, att)
  else
    match st.supported_api_versions with
    | some supported =>
      match activate_try_versions tryFn supported enabled_api_versions.reverse with
      | (some (u, cached), att) =>
        (.ok u, { st with api_version := cached }, att)
      | (none, att) =>
        (.error (.IncompatibleAPI (joinComma enabled_api_versions)
            (joinComma supported)), st, att)
    | none => (.error (.Inconsistent st.api_version), st, [])

end Registrar

/-! ## Concrete instances

Sample environments and inputs used to evaluate the embeddings on concrete
requests (the oracles model a healthy agent: files present, TPM calls
succeeding).
-/

namespace DelegatedCert

/-- Run a sequence of rate-limited calls from one IP: thread the limiter
map through `check_rate_limit` at the given call times, collecting the
verdicts. -/
def rateRun (limit : Nat) (ip : String) (m : RateMap) :
    List Nat → List Bool × RateMap
  | [] => ([], m)
  | t :: ts =>
    let r := check_rate_limit m ip limit t
    let rest := rateRun limit ip r.2 ts
    (r.1 :: rest.1, rest.2)

/-- A healthy delegated-certification environment: feature on, no
allowlist, no rate limit, all oracles succeeding; the openssl PEM round
trip is modelled as returning the input's bytes. -/
def sampleEnv : Env :=
  { unified_identity_enabled := true
    delegated_cert_allowed_ips := []
    delegated_cert_rate_limit := 0
    agent_uuid := "d432fbb3-d2f1-4a97-9ef7-75bd81c00000"
    ak_handle := 7
    fileExists := fun _ => true
    load_key_from_context_file := fun _ => .ok 11
    base64Decode := fun _ => none
    utf8Decode := fun _ => none
    public_key_pem_roundtrip := fun s => .ok (utf8Bytes s)
    certify_credential := fun _ _ _ => .ok (1, 2)
    marshall := fun _ => .ok [0] }

/-- A well-formed certification request (the public value is PEM-shaped,
so the base64 fallback is not taken). -/
def sampleReq : CertifyAppKeyRequest :=
  { api_version := some "1.0"
    command := some "certify_app_key"
    app_key_public := "-----BEGIN PUBLIC KEY-----MFk="
    app_key_context_path := "/var/lib/keylime/app_key.ctx"
    challenge_nonce := some "abc123" }

end DelegatedCert

namespace Geo

/-- A detected mobile sensor with IMEI and IMSI available. -/
def sampleMobileRaw : RawSensorData :=
  { sensor_type := "mobile"
    sensor_id := "12d1:1433"
    imei := some "867400022047199"
    imsi := some "460001357924680"
    lat := none
    lon := none
    accuracy := none }

/-- Geolocation environment with the feature on, a mobile sensor detected
and a PCR extension that succeeds. -/
def sampleGeoEnv : Env :=
  { unified_identity_enabled := true
    detect_geolocation_sensor := some sampleMobileRaw
    extend_pcr := fun _ _ => .ok () }

/-- The same environment with a failing PCR extension. -/
def failingGeoEnv : Env :=
  { sampleGeoEnv with extend_pcr := fun _ _ => .error "tpm failure" }

/-- The claim returned for `sampleMobileRaw` under nonce `abcd1234`. -/
def sampleGeoResponse : GeolocationResponse :=
  { build_nested_geolocation sampleMobileRaw with nonce := "abcd1234" }

end Geo

namespace Quotes

/-- A healthy quote-service environment: SHA-256 algorithms, feature flag
off, payload key serialization and TPM quote succeeding, an IMA log
present, no measured-boot log. -/
def sampleQuotesEnv : Env :=
  { hash_alg := "sha256"
    enc_alg := "rsa2048"
    sign_alg := "rsassa"
    unified_identity_enabled := false
    detect_geolocation_sensor := none
    pkey_pub_to_pem := .ok "-----BEGIN PUBLIC KEY-----SAMPLE-----END PUBLIC KEY-----"
    tpm_quote := fun _ _ => .ok "rAAAAQAU"
    check_mask := fun mask slot => .ok ((mask >>> slot) % 2 = 1)
    measuredboot_ml_file := false
    mb_rewind := .ok ()
    mb_read := .ok []
    ima_ml_file := true
    ima_read := fun n => .ok ("10 ... ima-ng sha256:... boot_aggregate", n, 1) }

/-- An integrity request whose nonce is 40 hex characters (20 bytes once
hex-decoded): alphanumeric, decodable, decoded length within the TPM
limit. -/
def longHexNonceReq : Integ :=
  { nonce := String.mk (List.replicate 40 'A')
    mask := "0"
    partParam := "1"
    ima_ml_entry := none }

/-- An integrity request with the two-character valid-hex nonce `AA`. -/
def shortHexNonceReq : Integ :=
  { nonce := "AA"
    mask := "0"
    partParam := "1"
    ima_ml_entry := none }

end Quotes

/-- Decidable equality for `Except` results, used to evaluate the
embeddings on concrete inputs. -/
instance {ε α : Type} [DecidableEq ε] [DecidableEq α] :
    DecidableEq (Except ε α) :=
  fun x y =>
    match x, y with
    | .ok a, .ok b =>
      if h : a = b then isTrue (by rw [h]) else isFalse (by simp [h])
    | .ok _, .error _ => isFalse (by simp)
    | .error _, .ok _ => isFalse (by simp)
    | .error e, .error f =>
      if h : e = f then isTrue (by rw [h]) else isFalse (by simp [h])

/-! ## Helper lemmas -/

/-- `sha256Round` preserves the length of the working state. -/
theorem sha256Round_length (st : List Nat) (kw : Nat × Nat) :
    (sha256Round st kw).length = st.length := by
  unfold sha256Round
  split <;> simp_all

/-- Folding compression rounds preserves the state length. -/
theorem foldl_sha256Round_length (ps : List (Nat × Nat)) :
    ∀ hs : List Nat, (ps.foldl sha256Round hs).length = hs.length := by
  induction ps with
  | nil => intro hs; rfl
  | cons p rest ih =>
    intro hs
    simp only [List.foldl_cons]
    rw [ih, sha256Round_length]

/-- `sha256Compress` preserves the state length. -/
theorem sha256Compress_length (hs block : List Nat) :
    (sha256Compress hs block).length = hs.length := by
  unfold sha256Compress
  simp [List.length_zip, foldl_sha256Round_length]

/-- Folding `sha256Compress` over blocks preserves the state length. -/
theorem foldl_sha256Compress_length (blocks : List (List Nat)) :
    ∀ hs : List Nat, (blocks.foldl sha256Compress hs).length = hs.length := by
  induction blocks with
  | nil => intro hs; rfl
  | cons b rest ih =>
    intro hs
    simp only [List.foldl_cons]
    rw [ih, sha256Compress_length]

/-- Serializing words to big-endian bytes multiplies the length by four. -/
theorem flatMap_be32_length (ws : List Nat) :
    (ws.flatMap be32).length = 4 * ws.length := by
  induction ws with
  | nil => rfl
  | cons w rest ih => simp [be32, ih]; omega

/-- A SHA-256 digest is 32 bytes long. -/
theorem sha256_length (msg : List Nat) : (sha256 msg).length = 32 := by
  unfold sha256
  rw [flatMap_be32_length, foldl_sha256Compress_length]
  rfl

/-- A SHA-256 digest always fits in a TPM `Data` buffer. -/
theorem dataTryFrom_sha256 (msg : List Nat) :
    dataTryFrom (sha256 msg) = some (sha256 msg) := by
  unfold dataTryFrom
  rw [if_pos]
  rw [sha256_length]
  omega

/-- A SHA-256 digest always fits in a TPM `Digest` buffer. -/
theorem digestTryFrom_sha256 (msg : List Nat) :
    digestTryFrom (sha256 msg) = some (sha256 msg) := by
  unfold digestTryFrom
  rw [if_pos]
  rw [sha256_length]
  omega

/-- `create_qualifying_data` as an equation: the openssl round trip
followed by the double hash (the TPM `Data` wrap never fails on a 32-byte
digest). -/
theorem create_qualifying_data_eq (env : DelegatedCert.Env)
    (pem nonce : String) :
    DelegatedCert.create_qualifying_data env pem nonce =
      match env.public_key_pem_roundtrip pem with
      | .error e => .error e
      | .ok pb => .ok (sha256 (sha256 pb ++ utf8Bytes nonce)) := by
  unfold DelegatedCert.create_qualifying_data
  cases env.public_key_pem_roundtrip pem with
  | error e => rfl
  | ok pb =>
    dsimp only
    rw [dataTryFrom_sha256]

/-- `extend_pcr_15_with_geolocation_and_nonce` as an equation: the digest
wrap never fails on a 32-byte digest, so the PCR is always extended with
the single-bank SHA-256 `DigestValues` over the claim-plus-nonce hash. -/
theorem extend_pcr_15_eq (env : Geo.Env) (g : Geo.GeolocationResponse)
    (nonce : String) :
    Geo.extend_pcr_15_with_geolocation_and_nonce env g nonce =
      (env.extend_pcr 15 [("sha256",
         sha256 (utf8Bytes (Geo.serialize_geo_for_hash g ++ nonce)))],
       some (15, [("sha256",
         sha256 (utf8Bytes (Geo.serialize_geo_for_hash g ++ nonce)))])) := by
  unfold Geo.extend_pcr_15_with_geolocation_and_nonce
  rw [digestTryFrom_sha256]

set_option maxHeartbeats 1000000 in
/-- Evaluation of the geolocation endpoint on the sample environment: the
mobile claim is returned and PCR 15 is extended with the hash of the
`json!` serialization (with `gnss` present as `null`) plus the nonce. -/
theorem attested_geolocation_sample_run :
    Geo.attested_geolocation Geo.sampleGeoEnv "abcd1234" =
      { code := 200, claim := some Geo.sampleGeoResponse,
        digest_extended := some (15, [("sha256", sha256 (utf8Bytes
          (Geo.serialize_geo_for_hash Geo.sampleGeoResponse ++ "abcd1234")))]) } := by
  unfold Geo.attested_geolocation
  simp only [show Geo.sampleGeoEnv.unified_identity_enabled = true from rfl,
    show Geo.sampleGeoEnv.detect_geolocation_sensor =
      some Geo.sampleMobileRaw from rfl,
    extend_pcr_15_eq]
  simp only [show ∀ (a : Nat) (b : List (String × List Nat)),
    Geo.sampleGeoEnv.extend_pcr a b = .ok () from fun _ _ => rfl]
  rfl

/-- The TPM phase of `integrity` never produces a 400 status. -/
theorem integrity_steps_code_not_400 (env : Quotes.Env) (p : Quotes.Integ)
    (mask : Nat) (pk : Option String) :
    (Quotes.integrity_quote_steps env p mask pk).code ≠ 400 := by
  unfold Quotes.integrity_quote_steps
  repeat' split
  all_goals simp

/-- The TPM phase of `integrity` always passes the UTF-8 bytes of the
nonce string to the TPM quote operation. -/
theorem integrity_steps_quote_bytes (env : Quotes.Env) (p : Quotes.Integ)
    (mask : Nat) (pk : Option String) :
    Quotes.quoteBytesOf (Quotes.integrity_quote_steps env p mask pk).trace =
      some (utf8Bytes p.nonce) := by
  unfold Quotes.integrity_quote_steps
  repeat' split
  all_goals simp [Quotes.quoteBytesOf]

/-- In the TPM phase of `integrity`, whenever the IMA read happens, the
quote came strictly before it in the trace. -/
theorem integrity_steps_ima_after_quote (env : Quotes.Env)
    (p : Quotes.Integ) (mask : Nat) (pk : Option String) (ii : Nat) :
    (Quotes.integrity_quote_steps env p mask pk).trace.findIdx?
        Quotes.isImaReadOp = some ii →
    (Quotes.integrity_quote_steps env p mask pk).trace.findIdx?
        Quotes.isQuoteOp = some 0 ∧ 0 < ii := by
  unfold Quotes.integrity_quote_steps
  repeat' split
  all_goals intro h
  all_goals simp_all [Quotes.isQuoteOp, Quotes.isImaReadOp]
  all_goals omega

/-! ## Claim theorems -/

/-- C1: on every successful delegated-certification request, the
qualifying data passed to `certify_credential` is
`SHA256( SHA256(app_key_public_PEM) ++ challenge_nonce_bytes )`, where the
PEM is the request value normalized (base64 unwrap if needed, then the
openssl parse / re-serialize round trip) and the nonce bytes are the
request nonce's UTF-8 bytes. -/
theorem C1_qualifying_data_binding (env : DelegatedCert.Env)
    (peer_addr : String) (req : DelegatedCert.CertifyAppKeyRequest)
    (rate : DelegatedCert.RateMap) (now : Nat)
    (app_key_public_pem : String) (pem_bytes : List Nat)
    (challenge_nonce : String)
    (hnonce : req.challenge_nonce = some challenge_nonce)
    (hdecode : DelegatedCert.decode_app_key_public env req.app_key_public =
      some app_key_public_pem)
    (hpem : env.public_key_pem_roundtrip app_key_public_pem = .ok pem_bytes) :
    (DelegatedCert.certify_app_key env peer_addr req rate now).code = 200 →
    (DelegatedCert.certify_app_key env peer_addr req rate now).qd_passed =
      some (sha256 (sha256 pem_bytes ++ utf8Bytes challenge_nonce)) := by
  rcases hq : DelegatedCert.certify_app_key env peer_addr req rate now with
    ⟨code, qd, rateOut⟩
  intro hcode
  simp at hcode
  subst hcode
  unfold DelegatedCert.certify_app_key at hq
  repeat' split at hq
  all_goals simp_all [create_qualifying_data_eq]
  all_goals repeat' split at hq
  all_goals simp_all

set_option maxRecDepth 40000 in
/-- Witness for C1: a concrete healthy run reaches 200 and binds exactly
the double hash of the PEM and the nonce. -/
theorem C1_witness :
    DelegatedCert.sampleReq.challenge_nonce = some "abc123" ∧
    DelegatedCert.decode_app_key_public DelegatedCert.sampleEnv
      DelegatedCert.sampleReq.app_key_public =
        some "-----BEGIN PUBLIC KEY-----MFk=" ∧
    DelegatedCert.sampleEnv.public_key_pem_roundtrip
        "-----BEGIN PUBLIC KEY-----MFk=" =
      .ok (utf8Bytes "-----BEGIN PUBLIC KEY-----MFk=") ∧
    (DelegatedCert.certify_app_key DelegatedCert.sampleEnv "10.0.0.5:44818"
        DelegatedCert.sampleReq [] 0).code = 200 ∧
    (DelegatedCert.certify_app_key DelegatedCert.sampleEnv "10.0.0.5:44818"
        DelegatedCert.sampleReq [] 0).qd_passed =
      some (sha256 (sha256 (utf8Bytes "-----BEGIN PUBLIC KEY-----MFk=") ++
        utf8Bytes "abc123")) := by
  have hcode : (DelegatedCert.certify_app_key DelegatedCert.sampleEnv
      "10.0.0.5:44818" DelegatedCert.sampleReq [] 0).code = 200 := by decide
  exact ⟨rfl, by decide, rfl, hcode,
    C1_qualifying_data_binding DelegatedCert.sampleEnv "10.0.0.5:44818"
      DelegatedCert.sampleReq [] 0 "-----BEGIN PUBLIC KEY-----MFk="
      (utf8Bytes "-----BEGIN PUBLIC KEY-----MFk=") "abc123"
      rfl (by decide) rfl hcode⟩

set_option maxRecDepth 100000 in
/-- C2 counterexample: on a concrete mobile-sensor run the returned claim
is `sampleGeoResponse`, the digest extended into PCR 15 is the SHA-256 of
the `json!` serialization (alphabetical keys, carrying `"gnss":null`)
plus the nonce, and that digest differs from the SHA-256 of the returned
claim's JSON with the nonce removed (declaration-order keys, `gnss`
omitted) plus the nonce — refuting the claim's equation. -/
theorem C2_counterexample :
    (Geo.attested_geolocation Geo.sampleGeoEnv "abcd1234").claim =
      some Geo.sampleGeoResponse ∧
    (Geo.attested_geolocation Geo.sampleGeoEnv "abcd1234").digest_extended =
      some (15, [("sha256", sha256 (utf8Bytes
        (Geo.serialize_geo_for_hash Geo.sampleGeoResponse ++ "abcd1234")))]) ∧
    sha256 (utf8Bytes
        (Geo.serialize_geo_for_hash Geo.sampleGeoResponse ++ "abcd1234")) ≠
      sha256 (utf8Bytes
        (Geo.serializeClaimWithoutNonce Geo.sampleGeoResponse ++ "abcd1234")) := by
  refine ⟨?_, ?_, ?_⟩
  · rw [attested_geolocation_sample_run]
  · rw [attested_geolocation_sample_run]
  · decide

/-- C2 as amended: when the feature is on and a sensor is detected, the
digest extended into PCR 15 equals
`SHA256( geo_for_hash_json ++ nonce )` wrapped as a single-bank SHA-256
`DigestValues`, where `geo_for_hash_json` is the `json!` object whose
keys serialize in `serde_json`'s default alphabetical order
(`gnss, mobile, sensor_type, tpm_attested, tpm_pcr_index`) with the
absent sensor serialized as `null`; and if the PCR extension fails the
endpoint returns 500. -/
theorem C2_pcr15_digest (env : Geo.Env) (nonce : String)
    (raw : Geo.RawSensorData)
    (hflag : env.unified_identity_enabled = true)
    (hdetect : env.detect_geolocation_sensor = some raw) :
    (Geo.attested_geolocation env nonce).digest_extended =
      some (15, [("sha256",
        sha256 (utf8Bytes (Geo.serialize_geo_for_hash
          { Geo.build_nested_geolocation raw with nonce := nonce } ++ nonce)))]) ∧
    (∀ e, env.extend_pcr 15 [("sha256",
        sha256 (utf8Bytes (Geo.serialize_geo_for_hash
          { Geo.build_nested_geolocation raw with nonce := nonce } ++ nonce)))] =
          .error e →
      (Geo.attested_geolocation env nonce).code = 500) := by
  unfold Geo.attested_geolocation
  simp only [hflag, hdetect, extend_pcr_15_eq]
  cases hext : env.extend_pcr 15 [("sha256",
      sha256 (utf8Bytes (Geo.serialize_geo_for_hash
        { Geo.build_nested_geolocation raw with nonce := nonce } ++ nonce)))] with
  | error e => simp
  | ok u => simp

/-- Witness for C2 as amended: with the failing PCR-extension environment
the endpoint returns 500. -/
theorem C2_witness :
    Geo.failingGeoEnv.unified_identity_enabled = true ∧
    Geo.failingGeoEnv.detect_geolocation_sensor = some Geo.sampleMobileRaw ∧
    (Geo.attested_geolocation Geo.failingGeoEnv "abcd1234").code = 500 :=
  ⟨rfl, rfl,
    (C2_pcr15_digest Geo.failingGeoEnv "abcd1234" Geo.sampleMobileRaw
      rfl rfl).2 "tpm failure" rfl⟩

/-- C3 counterexample: a 40-hex-character alphanumeric nonce hex-decodes
to 20 bytes (within the TPM limit), yet `integrity` rejects it with 400;
and on an accepted request with nonce `AA` the bytes passed to the TPM
quote are the UTF-8 bytes `[65, 65]`, not the hex-decoded `[170]`. -/
theorem C3_counterexample :
    (Quotes.integrity Quotes.sampleQuotesEnv Quotes.longHexNonceReq).code = 400 ∧
    (Quotes.longHexNonceReq.nonce.data.all Quotes.isAlphanumeric) = true ∧
    hexDecode Quotes.longHexNonceReq.nonce = some (List.replicate 20 170) ∧
    (List.replicate 20 170).length ≤ Quotes.MAX_NONCE_SIZE ∧
    Quotes.quoteBytesOf
        (Quotes.integrity Quotes.sampleQuotesEnv Quotes.shortHexNonceReq).trace =
      some (utf8Bytes "AA") ∧
    utf8Bytes "AA" ≠ (hexDecode "AA").getD [] := by
  refine ⟨by decide, by decide, by decide, by decide, by decide, by decide⟩

set_option maxHeartbeats 1000000 in
/-- C3 as amended: `integrity` returns 400 exactly when the nonce or mask
is not alphanumeric, the mask does not parse as a hex `u32`, the nonce's
character length exceeds `MAX_NONCE_SIZE`, or `partial` is neither `0` nor
`1`; and the bytes passed to the TPM quote, when the quote happens, are
the UTF-8 bytes of the nonce (never hex-decoded). -/
theorem C3_integrity_validation (env : Quotes.Env) (p : Quotes.Integ) :
    ((Quotes.integrity env p).code = 400 ↔
      ((p.nonce.data.all Quotes.isAlphanumeric) = false ∨
       (p.mask.data.all Quotes.isAlphanumeric) = false ∨
       Quotes.from_str_radix_16 (Quotes.trim_start_matches_0x p.mask) = none ∨
       p.nonce.length > Quotes.MAX_NONCE_SIZE ∨
       (p.partParam ≠ "0" ∧ p.partParam ≠ "1"))) ∧
    (Quotes.quoteBytesOf (Quotes.integrity env p).trace = none ∨
     Quotes.quoteBytesOf (Quotes.integrity env p).trace =
       some (utf8Bytes p.nonce)) := by
  unfold Quotes.integrity
  repeat' split
  all_goals simp_all [Quotes.quoteBytesOf, integrity_steps_code_not_400,
    integrity_steps_quote_bytes]

/-- C4 counterexample: a concrete accepted `integrity` request performs
the TPM quote first and the IMA read second, refuting the claim that the
quote is computed after the IMA slice is captured. -/
theorem C4_counterexample :
    (Quotes.integrity Quotes.sampleQuotesEnv Quotes.shortHexNonceReq).trace =
      [.quoteOp (utf8Bytes "AA") 0, .imaReadOp 0] ∧
    ¬ (∀ qi ii,
        (Quotes.integrity Quotes.sampleQuotesEnv
          Quotes.shortHexNonceReq).trace.findIdx? Quotes.isQuoteOp = some qi →
        (Quotes.integrity Quotes.sampleQuotesEnv
          Quotes.shortHexNonceReq).trace.findIdx? Quotes.isImaReadOp = some ii →
        ii < qi) := by
  refine ⟨by decide, ?_⟩
  intro hclaim
  have := hclaim 0 1 (by decide) (by decide)
  omega

set_option maxHeartbeats 1000000 in
/-- C4 as amended: in every `integrity` request whose trace contains the
IMA measurement-list read, the TPM quote is the first traced operation and
the IMA read comes strictly after it — the quote is computed before the
IMA slice is captured, not after. -/
theorem C4_quote_before_ima_read (env : Quotes.Env) (p : Quotes.Integ)
    (ii : Nat) :
    (Quotes.integrity env p).trace.findIdx? Quotes.isImaReadOp = some ii →
    (Quotes.integrity env p).trace.findIdx? Quotes.isQuoteOp = some 0 ∧
      0 < ii := by
  unfold Quotes.integrity
  repeat' split
  all_goals intro h
  all_goals first
    | exact integrity_steps_ima_after_quote _ _ _ _ _ h
    | simp_all

/-- Witness for C4 as amended, on the concrete accepted request. -/
theorem C4_witness :
    (Quotes.integrity Quotes.sampleQuotesEnv
      Quotes.shortHexNonceReq).trace.findIdx? Quotes.isImaReadOp = some 1 ∧
    ((Quotes.integrity Quotes.sampleQuotesEnv
       Quotes.shortHexNonceReq).trace.findIdx? Quotes.isQuoteOp = some 0 ∧
      0 < 1) :=
  ⟨by decide,
    C4_quote_before_ima_read Quotes.sampleQuotesEnv Quotes.shortHexNonceReq 1
      (by decide)⟩

/-- C5: the spec's scenario S1 (mirrored by this repository's own
`test_identity`) expects `GET /quotes/identity?nonce=1234567890ABCDEFHIJ`
to return 200; but the handler hex-decodes the nonce, `ABCDEFHIJ` is not
valid hex (and the length 19 is odd), so for every environment — the TPM
is never consulted — the handler returns 400. -/
theorem C5_identity_test_nonce_returns_400 :
    ∀ env : Quotes.Env,
      (Quotes.identity env { nonce := "1234567890ABCDEFHIJ" }).code = 400 :=
  fun _ => rfl

/-- C8: against a registrar reporting current version `3.4` and supported
versions `["3.4"]`, an agent with enabled versions `["1.2"]` gets
`IncompatibleAPI` with `agent_enabled = "1.2"` and
`registrar_supported = "3.4"`, no version is ever attempted, and the
client state is unchanged — for any outcome of the network oracle. -/
theorem C8_incompatible_api_mock_registrar :
    ∀ tryFn : String → Except Registrar.RegistrarClientError (List Nat),
      Registrar.register_agent tryFn
          { api_version := "3.4", supported_api_versions := some ["3.4"] }
          ["1.2"] =
        (.error (.IncompatibleAPI "1.2" "3.4"),
          { api_version := "3.4", supported_api_versions := some ["3.4"] },
          []) :=
  fun _ => rfl

/-- C10: with a recorded current version different from the UNKNOWN
sentinel, not enabled by the agent, and no recorded supported-versions
list, both `register_agent` and `activate_agent` return
`Inconsistent` carrying the current version and attempt no HTTP request
(the attempted-version list is empty). -/
theorem C10_inconsistent_without_requests
    (tryReg : String → Except Registrar.RegistrarClientError (List Nat))
    (tryAct : String → Except Registrar.RegistrarClientError Unit)
    (st : Registrar.RegistrarClient) (enabled : List String)
    (hUnknown : st.api_version ≠ Registrar.UNKNOWN_API_VERSION)
    (hEnabled : enabled.contains st.api_version = false)
    (hSupported : st.supported_api_versions = none) :
    Registrar.register_agent tryReg st enabled =
      (.error (.Inconsistent st.api_version), st, []) ∧
    Registrar.activate_agent tryAct st enabled =
      (.error (.Inconsistent st.api_version), st, []) := by
  unfold Registrar.register_agent Registrar.activate_agent
  rw [hEnabled, hSupported]
  simp [hUnknown]

/-- Witness for C10 at a concrete client state. -/
theorem C10_witness :
    ("3.4" ≠ Registrar.UNKNOWN_API_VERSION) ∧
    (["1.2"].contains "3.4" = false) ∧
    (Registrar.register_agent (fun _ => .error (.Registration 500))
        { api_version := "3.4", supported_api_versions := none } ["1.2"] =
      (.error (.Inconsistent "3.4"),
        { api_version := "3.4", supported_api_versions := none }, []) ∧
     Registrar.activate_agent (fun _ => .error (.Activation 500))
        { api_version := "3.4", supported_api_versions := none } ["1.2"] =
      (.error (.Inconsistent "3.4"),
        { api_version := "3.4", supported_api_versions := none }, [])) :=
  ⟨by decide, by decide,
    C10_inconsistent_without_requests _ _ _ _ (by decide) (by decide) rfl⟩

/-- C6 counterexample: a sidecar response with HTTP status 500 and a
well-formed JSON body is rejected with 503 by `on_http_call_response`,
not with 403 as the claim states for every status ≥ 400. -/
theorem C6_counterexample :
    500 ≥ 400 ∧
    EdgeFilter.on_http_call_response 500 (some (.object none none)) =
      .reject 503 ∧
    EdgeFilter.FilterAction.reject 503 ≠ .reject 403 := by
  refine ⟨by omega, rfl, by decide⟩

/-- C6 as amended: a missing body, an HTTP status ≥ 400, a parse error,
and a set JSON `error` field are all rejected with 503; a valid response
with `verification_result` different from `true` is rejected with 403; and
the request is resumed exactly when the status is below 400 and the body
parses with `verification_result` equal to `true` and no error. -/
theorem C6_sidecar_response_classification
    (status_code : Nat) (body : Option EdgeFilter.SidecarJson) :
    (body = none →
      EdgeFilter.on_http_call_response status_code body = .reject 503) ∧
    (∀ b, body = some b → status_code ≥ 400 →
      EdgeFilter.on_http_call_response status_code body = .reject 503) ∧
    (body = some .invalid → status_code < 400 →
      EdgeFilter.on_http_call_response status_code body = .reject 503) ∧
    (∀ vr e, body = some (.object vr (some e)) → status_code < 400 →
      EdgeFilter.on_http_call_response status_code body = .reject 503) ∧
    (∀ vr, body = some (.object vr none) → status_code < 400 →
      vr ≠ some true →
      EdgeFilter.on_http_call_response status_code body = .reject 403) ∧
    (EdgeFilter.on_http_call_response status_code body = .resume ↔
      status_code < 400 ∧ body = some (.object (some true) none)) := by
  cases body with
  | none => simp [EdgeFilter.on_http_call_response]
  | some b =>
    by_cases h : status_code ≥ 400
    · cases b with
      | invalid => simp [EdgeFilter.on_http_call_response, h]
      | object vr e => simp [EdgeFilter.on_http_call_response, h]
    · cases b with
      | invalid => simp [EdgeFilter.on_http_call_response, h]
      | object vr e =>
        cases e with
        | some msg => simp [EdgeFilter.on_http_call_response, h]
        | none =>
          cases vr with
          | none => simp [EdgeFilter.on_http_call_response, h]
          | some b' =>
            cases b' with
            | true => simp [EdgeFilter.on_http_call_response, h]; omega
            | false => simp [EdgeFilter.on_http_call_response, h]

/-- Witness for C6 as amended: a 200 response carrying
`verification_result = true` resumes the request. -/
theorem C6_witness :
    EdgeFilter.on_http_call_response 200 (some (.object (some true) none)) =
      .resume :=
  (C6_sidecar_response_classification 200
    (some (.object (some true) none))).2.2.2.2.2.mpr ⟨by omega, rfl⟩

/-- C7 counterexample: with a registrar supporting both enabled versions
and every attempt failing with a transport error (`Reqwest`),
`activate_agent` attempts both versions (`["3.4", "3.3"]`) and returns
`IncompatibleAPI` — not the transport error returned immediately after the
first attempt, as the claim states for both functions identically. -/
theorem C7_counterexample :
    Registrar.activate_agent
        (fun _ => .error (.Reqwest "connection refused"))
        { api_version := "9.9", supported_api_versions := some ["3.3", "3.4"] }
        ["3.3", "3.4"] =
      (.error (.IncompatibleAPI "3.3, 3.4" "3.3, 3.4"),
        { api_version := "9.9", supported_api_versions := some ["3.3", "3.4"] },
        ["3.4", "3.3"]) ∧
    (["3.4", "3.3"] : List String) ≠ ["3.4"] ∧
    Registrar.RegistrarClientError.IncompatibleAPI "3.3, 3.4" "3.3, 3.4" ≠
      .Reqwest "connection refused" := by
  refine ⟨by decide, by decide, by decide⟩

/-- C7 as amended: the two version-selection loops differ.  In
`register_agent`'s loop a matching version's failure with anything other
than `IncompatibleAPI` is returned immediately, with no further attempt;
in `activate_agent`'s loop ANY failure is logged and the loop continues
with the remaining versions. -/
theorem C7_version_loop_error_handling :
    (∀ (tryFn : String → Except Registrar.RegistrarClientError (List Nat))
       (supported vs : List String) (v : String)
       (e : Registrar.RegistrarClientError),
       supported.any (fun s => rustTrim s = rustTrim v) = true →
       tryFn v = .error e →
       Registrar.isIncompatibleAPI e = false →
       Registrar.register_try_versions tryFn supported (v :: vs) =
         (some (.error e, none), [v])) ∧
    (∀ (tryFn : String → Except Registrar.RegistrarClientError Unit)
       (supported vs : List String) (v : String)
       (e : Registrar.RegistrarClientError),
       supported.any (fun s => rustTrim s = rustTrim v) = true →
       tryFn v = .error e →
       Registrar.activate_try_versions tryFn supported (v :: vs) =
         ((Registrar.activate_try_versions tryFn supported vs).1,
           v :: (Registrar.activate_try_versions tryFn supported vs).2)) := by
  constructor
  · intro tryFn supported vs v e hany htry hinc
    unfold Registrar.register_try_versions
    simp only [hany, if_true, htry, hinc]
    simp
  · intro tryFn supported vs v e hany htry
    rcases h : Registrar.activate_try_versions tryFn supported vs with ⟨r, att⟩
    simp only [Registrar.activate_try_versions, hany, if_true, htry, h]

/-- Witness for C7 as amended, at a matching version whose attempt fails
with a transport error. -/
theorem C7_witness :
    (["1.2"].any (fun s => rustTrim s = rustTrim "1.2") = true) ∧
    Registrar.register_try_versions
        (fun _ => .error (.Reqwest "refused")) ["1.2"] ["1.2", "1.0"] =
      (some (.error (.Reqwest "refused"), none), ["1.2"]) ∧
    Registrar.activate_try_versions
        (fun _ => .error (.Reqwest "refused")) ["1.2"] ["1.2", "1.0"] =
      ((Registrar.activate_try_versions
          (fun _ => .error (.Reqwest "refused")) ["1.2"] ["1.0"]).1,
        "1.2" :: (Registrar.activate_try_versions
          (fun _ => .error (.Reqwest "refused")) ["1.2"] ["1.0"]).2) :=
  ⟨by decide,
    (C7_version_loop_error_handling.1 _ ["1.2"] ["1.0"] "1.2" _
      (by decide) rfl (by decide)),
    (C7_version_loop_error_handling.2 _ ["1.2"] ["1.0"] "1.2" _
      (by decide) rfl)⟩

/-- The first rate-limited call from an IP that has no entry creates the
window and is admitted exactly when the limit is at least one. -/
theorem check_rate_limit_first (L t0 : Nat) (ip : String) (hL : L ≠ 0) :
    DelegatedCert.check_rate_limit [] ip L t0 =
      (decide (1 ≤ L), [(ip, (1, t0))]) := by
  unfold DelegatedCert.check_rate_limit
  rw [if_neg hL]
  simp [DelegatedCert.rateLookup, DelegatedCert.rateInsert]

/-- A rate-limited call within the 60-second window increments the counter
and is admitted exactly when the counter stays within the limit. -/
theorem check_rate_limit_in_window (L : Nat) (ip : String) (n t0 t : Nat)
    (hL : L ≠ 0) (ht : t - t0 ≤ 60) :
    DelegatedCert.check_rate_limit [(ip, (n, t0))] ip L t =
      (decide (n + 1 ≤ L), [(ip, (n + 1, t0))]) := by
  unfold DelegatedCert.check_rate_limit
  rw [if_neg hL]
  have hnr : ¬ (t - t0 > 60) := by omega
  simp [DelegatedCert.rateLookup, DelegatedCert.rateInsert, hnr]

/-- A rate-limited call more than 60 seconds after the window start resets
the window: the counter restarts at one with a new window start. -/
theorem check_rate_limit_reset (L : Nat) (ip : String) (n t0 t : Nat)
    (hL : L ≠ 0) (ht : t - t0 > 60) :
    DelegatedCert.check_rate_limit [(ip, (n, t0))] ip L t =
      (decide (1 ≤ L), [(ip, (1, t))]) := by
  unfold DelegatedCert.check_rate_limit
  rw [if_neg hL]
  simp [DelegatedCert.rateLookup, DelegatedCert.rateInsert, ht]

/-- Running further calls within the window from a single-entry state: the
`i`-th further call is admitted exactly when the incremented counter stays
within the limit, and the final state records the total count with the
original window start. -/
theorem rateRun_invariant (L : Nat) (ip : String) :
    ∀ (ts : List Nat) (n t0 : Nat), L ≠ 0 → (∀ t ∈ ts, t - t0 ≤ 60) →
      DelegatedCert.rateRun L ip [(ip, (n, t0))] ts =
        ((List.range ts.length).map (fun i => decide (n + i + 1 ≤ L)),
          [(ip, (n + ts.length, t0))]) := by
  intro ts
  induction ts with
  | nil =>
    intro n t0 hL hw
    simp [DelegatedCert.rateRun]
  | cons t ts ih =>
    intro n t0 hL hw
    have ht : t - t0 ≤ 60 := hw t (by simp)
    have hw' : ∀ u ∈ ts, u - t0 ≤ 60 := fun u hu => hw u (by simp [hu])
    unfold DelegatedCert.rateRun
    simp only [check_rate_limit_in_window L ip n t0 t hL ht]
    simp only [ih (n + 1) t0 hL hw']
    simp only [Prod.mk.injEq, List.length_cons]
    refine ⟨?_, by rw [show n + 1 + ts.length = n + (ts.length + 1) from by omega]⟩
    rw [List.range_succ_eq_map]
    simp only [List.map_cons, List.map_map]
    rw [List.cons_eq_cons]
    constructor
    · simp
    · apply List.map_congr_left
      intro i _
      simp only [Function.comp]
      rw [decide_eq_decide]
      omega

/-- C9: for a limit `L ≥ 1` and calls at times `t0, ts...` from one IP,
all within 60 seconds of the window start `t0`: the i-th call is admitted
exactly when `i < L` (so exactly the first `L` calls pass); a failed
rate-limit check makes `certify_app_key` return 429 (when the feature is
on and no allowlist is configured); and a call more than 60 seconds after
the window start is admitted again after the window resets. -/
theorem C9_rate_limiter_window (L : Nat) (ip : String) (t0 : Nat)
    (ts : List Nat) (hL : 1 ≤ L) (hwin : ∀ t ∈ ts, t - t0 ≤ 60) :
    (DelegatedCert.rateRun L ip [] (t0 :: ts)).1 =
      (List.range (ts.length + 1)).map (fun i => decide (i < L)) ∧
    (∀ (env : DelegatedCert.Env) (peer_addr : String)
       (req : DelegatedCert.CertifyAppKeyRequest)
       (rate : DelegatedCert.RateMap) (now : Nat),
       env.unified_identity_enabled = true →
       env.delegated_cert_allowed_ips = [] →
       (DelegatedCert.check_rate_limit rate
           (String.mk (peer_addr.data.takeWhile (fun c => c ≠ ':')))
           env.delegated_cert_rate_limit now).1 = false →
       (DelegatedCert.certify_app_key env peer_addr req rate now).code = 429) ∧
    (∀ t', t' - t0 > 60 →
       (DelegatedCert.check_rate_limit
           (DelegatedCert.rateRun L ip [] (t0 :: ts)).2 ip L t').1 = true) := by
  have hL0 : L ≠ 0 := by omega
  have hrun :
      DelegatedCert.rateRun L ip [] (t0 :: ts) =
        (decide (1 ≤ L) ::
          (List.range ts.length).map (fun i => decide (1 + i + 1 ≤ L)),
          [(ip, (1 + ts.length, t0))]) := by
    unfold DelegatedCert.rateRun
    simp only [check_rate_limit_first L t0 ip hL0]
    simp only [rateRun_invariant L ip ts 1 t0 hL0 hwin]
  refine ⟨?_, ?_, ?_⟩
  · rw [hrun]
    rw [List.range_succ_eq_map]
    simp only [List.map_cons, List.map_map]
    rw [List.cons_eq_cons]
    constructor
    · simp [hL]; omega
    · apply List.map_congr_left
      intro i _
      simp only [Function.comp]
      rw [decide_eq_decide]
      omega
  · intro env peer_addr req rate now hflag hallow hfail
    unfold DelegatedCert.certify_app_key
    rw [hflag]
    simp only [Bool.true_eq_false, if_false]
    rw [hallow]
    simp only [ne_eq, not_true_eq_false, false_and, if_false]
    rcases hc : DelegatedCert.check_rate_limit rate
        (String.mk (peer_addr.data.takeWhile (fun c => c ≠ ':')))
        env.delegated_cert_rate_limit now with ⟨b, m'⟩
    rw [hc] at hfail
    simp at hfail
    subst hfail
    simp
  · intro t' ht'
    rw [hrun]
    rw [check_rate_limit_reset L ip (1 + ts.length) t0 t' hL0 ht']
    simp [hL]

/-- Witness for C9: limit 2, calls at 0, 10, 20, 30 seconds — admitted,
admitted, rejected, rejected — a failed check surfaces as 429, and a call
at 91 seconds is admitted again. -/
theorem C9_witness :
    (1 ≤ 2) ∧
    (DelegatedCert.rateRun 2 "10.0.0.5" [] [0, 10, 20, 30]).1 =
      (List.range 4).map (fun i => decide (i < 2)) ∧
    (∀ t', t' - 0 > 60 →
      (DelegatedCert.check_rate_limit
          (DelegatedCert.rateRun 2 "10.0.0.5" [] [0, 10, 20, 30]).2
          "10.0.0.5" 2 t').1 = true) := by
  have h := C9_rate_limiter_window 2 "10.0.0.5" 0 [10, 20, 30]
    (by omega) (by decide)
  exact ⟨by omega, h.1, h.2.2⟩

end AegisSpec
